import Mathlib

/-!
Verification development for the Nimble counter service.

The development shallowly embeds the Rust sources:
  * `src/Nimble/src/endorser_state.rs` (the endorser state machine), and
  * `src/endpoint/src/lib.rs` (the client endpoint / verifier orchestration),
together with the error enum of `src/endorser/src/errors.rs`.

Byte strings are modelled as `List Nat` (each entry one byte).  The external
cryptographic primitives (SHA3-256 from the `sha3` crate, Ed25519 signing from
`ed25519-dalek` / the `ledger` crate) are not part of this repository's
sources, so they are modelled as abstract function parameters: `hash`/`digest`
for hashing, a signing function for the private key, and a boolean
verification oracle for signature checking.  All definitions are executable.
-/

/-- Byte strings: one `Nat` per byte. -/
abbrev Bytes := List Nat

/-- Lookup in an association-list model of Rust's `HashMap<Vec<u8>, Vec<u8>>`. -/
def mapLookup : List (Bytes × Bytes) → Bytes → Option Bytes
  | [], _ => none
  | (k', v') :: rest, k => if k' = k then some v' else mapLookup rest k

/-- Insert-or-replace in the association-list model of `HashMap::insert`. -/
def mapInsert : List (Bytes × Bytes) → Bytes → Bytes → List (Bytes × Bytes)
  | [], k, v => [(k, v)]
  | (k', v') :: rest, k, v =>
    if k' = k then (k, v) :: rest else (k', v') :: mapInsert rest k v

/-- Modelled from the spec: `crate::helper::concat_bytes` of the Nimble crate is
not under `src/`; the spec writes the operation as byte concatenation `‖`. -/
def concat_bytes (a b : Bytes) : Bytes := a ++ b

namespace NimbleCrate

/-- Modelled from the spec: the Nimble crate's `errors` module is not under
`src/`.  `StateCreationError` and `TailDoesNotMatch` are the variants used in
`endorser_state.rs`; `LedgerNotFound` and `InvalidHeight` are the endorser
error kinds named by the spec (§4.1, §7). -/
inductive EndorserError where
  | StateCreationError
  | TailDoesNotMatch
  | LedgerNotFound
  | InvalidHeight
  deriving DecidableEq, Repr

end NimbleCrate

namespace EndorserCrate

/-- The error enum of `src/endorser/src/errors.rs` (all four variants). -/
inductive EndorserError where
  | InvalidLedgerName
  | LedgerExists
  | LedgerHeightOverflow
  | ViewLedgerNotInitialized
  deriving DecidableEq, Repr

end EndorserCrate

/-- `EndorserState` of `endorser_state.rs`: an Ed25519 key pair (modelled by
the signing function `signKey` and the raw public key bytes `pubKey`) and the
map from ledger handles to tail hashes.  The state stores no heights. -/
structure EndorserState where
  signKey : Bytes → Bytes
  pubKey : Bytes
  ledgers : List (Bytes × Bytes)

/-- `EndorserState::create_ledger`: signs the handle, hashes the signature and
unconditionally inserts `handle ↦ hash(sign(handle))`; always returns `Ok`. -/
def create_ledger (hash : Bytes → Bytes) (s : EndorserState) (genesis_block_hash : Bytes) :
    Except NimbleCrate.EndorserError (Bytes × Bytes × Bytes) × EndorserState :=
  let handle := genesis_block_hash
  let sign_handle := s.signKey handle
  let sign_hash := hash sign_handle
  (.ok (handle, sign_handle, s.pubKey),
   { s with ledgers := mapInsert s.ledgers handle sign_hash })

/-- `EndorserState::append_ledger`: if the handle is present, hashes
`previous_hash ‖ updated_hash` into the new tail, signs the new tail, stores
it, and returns `(previous_hash, tail_hash, signature)`; otherwise fails with
`StateCreationError`. -/
def append_ledger (hash : Bytes → Bytes) (s : EndorserState)
    (endorser_handle updated_hash : Bytes) :
    Except NimbleCrate.EndorserError (Bytes × Bytes × Bytes) × EndorserState :=
  match mapLookup s.ledgers endorser_handle with
  | some previous_hash =>
    let concat_hashes := concat_bytes previous_hash updated_hash
    let tail_hash := hash concat_hashes
    let signature := s.signKey tail_hash
    (.ok (previous_hash, tail_hash, signature),
     { s with ledgers := mapInsert s.ledgers endorser_handle tail_hash })
  | none => (.error .StateCreationError, s)

/-- `EndorserState::get_tail`: returns the stored tail for a present handle and
fails with `StateCreationError` otherwise. -/
def get_tail (s : EndorserState) (endorser_handle : Bytes) :
    Except NimbleCrate.EndorserError Bytes :=
  match mapLookup s.ledgers endorser_handle with
  | some current_tail => .ok current_tail
  | none => .error .StateCreationError

/-- `Store::get_latest_state_for_handle`: reads the tail (no mutation), signs
`hash(tail ‖ nonce)` and returns `(nonce, tail, signature)`; an absent handle
yields `TailDoesNotMatch`. -/
def get_latest_state_for_handle (hash : Bytes → Bytes) (s : EndorserState)
    (handle nonce : Bytes) :
    Except NimbleCrate.EndorserError (Bytes × Bytes × Bytes) :=
  match get_tail s handle with
  | .ok tail_hash_bytes =>
    let content_to_sign := hash (concat_bytes tail_hash_bytes nonce)
    .ok (nonce, tail_hash_bytes, s.signKey content_to_sign)
  | .error _ => .error .TailDoesNotMatch

/-- `Store::append_and_update_endorser_state_tail`: hashes the raw data and
delegates to `append_ledger`; the source `unwrap`s the error case (panic),
modelled as `none`. -/
def append_and_update_endorser_state_tail (hash : Bytes → Bytes) (s : EndorserState)
    (endorser_handle updated_data : Bytes) :
    Option ((Bytes × Bytes × Bytes) × EndorserState) :=
  let updated_hash := hash updated_data
  match append_ledger hash s endorser_handle updated_hash with
  | (.ok r, s') => some (r, s')
  | (.error _, _) => none

/-! ## Client endpoint (`src/endpoint/src/lib.rs`) -/

/-- Modelled from the spec: `EndpointError` is declared in
`src/endpoint/src/errors.rs`, which is not under `src/`; the variants are the
ones used in `src/endpoint/src/lib.rs` (including the source's spelling
`FaieldToVerifyReadCounter`). -/
inductive EndpointError where
  | CoordinatorHostNameNotFound
  | FailedToCreateNewCounter
  | FailedToIncrementCounter
  | FailedToReadCounter
  | FailedToReadViewLedger
  | FailedToGetTimeoutMap
  | FailedToPingAllEndorsers
  | FailedToAddEndorsers
  | FailedToAcquireReadLock
  | FailedToAcquireWriteLock
  | FailedToApplyViewChange
  | FailedToVerifyNewCounter
  | FailedToVerifyIncrementedCounter
  | FaieldToVerifyReadCounter
  | FailedToConvertCounter
  deriving DecidableEq, Repr

/-- Modelled from the spec: `VerificationError` of the `ledger` crate is not
under `src/`; `ViewNotFound` is the recoverable variant tested by the endpoint
code, the others are the verification error kinds named by the spec (§7). -/
inductive VerificationError where
  | ViewNotFound
  | InvalidSignature
  | InsufficientReceipts
  | InvalidAttestation
  deriving DecidableEq, Repr

/-- `MessageType` of `src/endpoint/src/lib.rs` (declaration order as in the
source; Rust assigns default discriminants 0..5). -/
inductive MessageType where
  | NewCounterReq
  | NewCounterResp
  | IncrementCounterReq
  | IncrementCounterResp
  | ReadCounterReq
  | ReadCounterResp
  deriving DecidableEq, Repr

/-- The value of `mt as u64` in Rust: default discriminants in declaration
order, starting at 0. -/
def MessageType.asU64 : MessageType → Nat
  | .NewCounterReq => 0
  | .NewCounterResp => 1
  | .IncrementCounterReq => 2
  | .IncrementCounterResp => 3
  | .ReadCounterReq => 4
  | .ReadCounterResp => 5

/-- `SignatureFormat` of `src/endpoint/src/lib.rs`. -/
inductive SignatureFormat where
  | RAW
  | DER
  deriving DecidableEq, Repr

/-- Little-endian byte encoding with a fixed byte width (`to_le_bytes`). -/
def leBytes : Nat → Nat → Bytes
  | 0, _ => []
  | k + 1, n => n % 256 :: leBytes k (n / 256)

/-- Rust `u64::to_le_bytes`. -/
def u64_le (n : Nat) : Bytes := leBytes 8 n

/-- Rust `usize::to_le_bytes` on a platform whose `usize` is `bits` wide. -/
def usize_le (bits n : Nat) : Bytes := leBytes (bits / 8) n

/-- The base64url alphabet as ASCII codes: `A-Z a-z 0-9 - _`. -/
def b64chars : Bytes :=
  (List.range 26).map (· + 65) ++ (List.range 26).map (· + 97) ++
  (List.range 10).map (· + 48) ++ [45, 95]

/-- Index into the base64url alphabet. -/
def b64c (n : Nat) : Nat := b64chars.getD n 0

/-- `base64_url::encode`: URL-safe base64 without padding, as ASCII codes. -/
def base64url : Bytes → Bytes
  | [] => []
  | [b1] => [b64c (b1 / 4), b64c (b1 % 4 * 16)]
  | [b1, b2] => [b64c (b1 / 4), b64c (b1 % 4 * 16 + b2 / 16), b64c (b2 % 16 * 4)]
  | b1 :: b2 :: b3 :: rest =>
    b64c (b1 / 4) :: b64c (b1 % 4 * 16 + b2 / 16) ::
    b64c (b2 % 16 * 4 + b3 / 64) :: b64c (b3 % 64) :: base64url rest

/-- `format!("{}.{}.{}.{}.{}", a, b, c, d, e)` over byte strings
(46 is ASCII `.`). -/
def dotted5 (a b c d e : Bytes) : Bytes :=
  a ++ [46] ++ b ++ [46] ++ c ++ [46] ++ d ++ [46] ++ e

/-- `format!("{}.{}.{}.{}.{}.{}", a, b, c, d, e, f)` over byte strings. -/
def dotted6 (a b c d e f : Bytes) : Bytes :=
  a ++ [46] ++ b ++ [46] ++ c ++ [46] ++ d ++ [46] ++ e ++ [46] ++ f

/-- The pre-digest string built by `new_counter` for the client-signed block:
`b64(msgtype) . b64(id) . b64(handle) . b64(0u64 le) . b64(tag)`. -/
def new_counter_req_str (id handle tag : Bytes) : Bytes :=
  dotted5 (base64url (u64_le (MessageType.asU64 .NewCounterReq)))
    (base64url id) (base64url handle) (base64url (u64_le 0)) (base64url tag)

/-- The pre-digest string of `new_counter`'s response message. -/
def new_counter_resp_str (id handle tag : Bytes) : Bytes :=
  dotted5 (base64url (u64_le (MessageType.asU64 .NewCounterResp)))
    (base64url id) (base64url handle) (base64url (u64_le 0)) (base64url tag)

/-- The pre-digest string built by `increment_counter` for the client-signed
block, with the expected counter as `u64` little-endian. -/
def increment_counter_req_str (id handle : Bytes) (expected_counter : Nat) (tag : Bytes) : Bytes :=
  dotted5 (base64url (u64_le (MessageType.asU64 .IncrementCounterReq)))
    (base64url id) (base64url handle) (base64url (u64_le expected_counter)) (base64url tag)

/-- The pre-digest string of `increment_counter`'s response message; the source
encodes `expected_height` (a `usize`) little-endian. -/
def increment_counter_resp_str (usize_bits : Nat) (id handle : Bytes)
    (expected_height : Nat) (tag : Bytes) : Bytes :=
  dotted5 (base64url (u64_le (MessageType.asU64 .IncrementCounterResp)))
    (base64url id) (base64url handle)
    (base64url (usize_le usize_bits expected_height)) (base64url tag)

/-- The pre-digest string whose signature `read_counter` checks inside the
returned block: `NewCounterReq` when the verified counter is 0 and
`IncrementCounterReq` otherwise. -/
def read_counter_inner_str (id handle : Bytes) (counter : Nat) (tag : Bytes) : Bytes :=
  dotted5
    (base64url (u64_le (MessageType.asU64
      (if counter = 0 then .NewCounterReq else .IncrementCounterReq))))
    (base64url id) (base64url handle) (base64url (u64_le counter)) (base64url tag)

/-- The pre-digest string of `read_counter`'s response message (six fields,
ending with the client nonce). -/
def read_counter_resp_str (id handle : Bytes) (counter : Nat) (tag nonce : Bytes) : Bytes :=
  dotted6 (base64url (u64_le (MessageType.asU64 .ReadCounterResp)))
    (base64url id) (base64url handle) (base64url (u64_le counter))
    (base64url tag) (base64url nonce)

/-- The cryptographic primitives used by the endpoint, abstracted:
`NimbleDigest::digest`, the endpoint private key's signing function, raw
signature verification against a public key, and DER re-encoding. -/
structure Crypto where
  digest : Bytes → Bytes
  sign : Bytes → Bytes
  sigVerify : Bytes → Bytes → Bytes → Bool
  toDer : Bytes → Bytes

/-- Modelled from the spec: `Signature::num_bytes()` of the `ledger` crate is
not under `src/`; the spec fixes 64-byte raw Ed25519 signatures (§6). -/
def signature_num_bytes : Nat := 64

/-- `EndpointState` (the connection is modelled separately as an environment,
and the private key by `Crypto.sign`): group identity `id`, public key `pk`,
and the verifier state `vs` of the abstract type `V`. -/
structure EndpointStateM (V : Type) where
  id : Bytes
  pk : Bytes
  vs : V

/-- The endpoint's environment: coordinator RPC results (as functions of the
request arguments), the `ledger` crate's verifier calls on an abstract
verifier-state type `V`, the outcome of `update_view`, and the success of the
two `RwLock` read acquisitions of one operation. -/
structure ClientEnv (V : Type) where
  new_ledger : Bytes → Bytes → Option Bytes
  append : Bytes → Bytes → Nat → Option (Bytes × Bytes)
  read_latest : Bytes → Bytes → Option (Bytes × Bytes × Bytes)
  verify_new_ledger : V → Bytes → Bytes → Bytes → Except VerificationError Unit
  verify_append : V → Bytes → Bytes → Bytes → Nat → Bytes → Except VerificationError Unit
  verify_read_latest : V → Bytes → Bytes → Bytes → Bytes → Bytes → Except VerificationError Nat
  update_view : V → Except EndpointError V
  read_lock1 : Bool
  read_lock2 : Bool

/-- The source's `match sigformat { DER => sig.to_der(), _ => sig.to_bytes() }`. -/
def fmtsig (C : Crypto) (fmt : SignatureFormat) (sig : Bytes) : Bytes :=
  match fmt with
  | .DER => C.toDer sig
  | _ => sig

/-- The block sent by `new_counter`: `tag ‖ sign(digest(request string))`. -/
def new_counter_block (C : Crypto) (id handle tag : Bytes) : Bytes :=
  tag ++ C.sign (C.digest (new_counter_req_str id handle tag))

/-- The block sent by `increment_counter`. -/
def increment_counter_block (C : Crypto) (id handle : Bytes) (expected_counter : Nat)
    (tag : Bytes) : Bytes :=
  tag ++ C.sign (C.digest (increment_counter_req_str id handle expected_counter tag))

/-- `EndpointState::new_counter`.  RPC and verifier calls are taken from the
environment; a failed lock acquisition, transport error, or verification
failure returns the source's error; a first verification failure of exactly
`ViewNotFound` triggers one `update_view` plus one re-verification against the
refreshed verifier state. -/
def new_counter (C : Crypto) (env : ClientEnv V) (st : EndpointStateM V)
    (handle tag : Bytes) (sigformat : SignatureFormat) :
    Except EndpointError Bytes × EndpointStateM V :=
  let block := new_counter_block C st.id handle tag
  match env.new_ledger handle block with
  | none => (.error .FailedToCreateNewCounter, st)
  | some receipts =>
    let finish := fun (st' : EndpointStateM V) =>
      let sig := C.sign (C.digest (new_counter_resp_str st.id handle tag))
      ((.ok (fmtsig C sigformat sig) : Except EndpointError Bytes), st')
    if env.read_lock1 then
      match env.verify_new_ledger st.vs handle block receipts with
      | .ok _ => finish st
      | .error e =>
        if e ≠ .ViewNotFound then (.error .FailedToVerifyNewCounter, st)
        else
          match env.update_view st.vs with
          | .error _ => (.error .FailedToVerifyNewCounter, st)
          | .ok v' =>
            if env.read_lock2 then
              match env.verify_new_ledger v' handle block receipts with
              | .ok _ => finish { st with vs := v' }
              | .error _ => (.error .FailedToVerifyNewCounter, { st with vs := v' })
            else (.error .FailedToAcquireReadLock, { st with vs := v' })
    else (.error .FailedToAcquireReadLock, st)

/-- `EndpointState::increment_counter`.  The `usize::try_from(expected_counter)`
guard is modelled by `expected_counter < 2 ^ usize_bits`; on failure the call
returns `FailedToConvertCounter` before building the block or contacting the
coordinator. -/
def increment_counter (C : Crypto) (usize_bits : Nat) (env : ClientEnv V)
    (st : EndpointStateM V) (handle tag : Bytes) (expected_counter : Nat)
    (sigformat : SignatureFormat) :
    Except EndpointError Bytes × EndpointStateM V :=
  if expected_counter < 2 ^ usize_bits then
    let expected_height := expected_counter
    let block := increment_counter_block C st.id handle expected_counter tag
    match env.append handle block expected_counter with
    | none => (.error .FailedToIncrementCounter, st)
    | some (hash_nonces, receipts) =>
      let finish := fun (st' : EndpointStateM V) =>
        let sig := C.sign (C.digest
          (increment_counter_resp_str usize_bits st.id handle expected_height tag))
        ((.ok (fmtsig C sigformat sig) : Except EndpointError Bytes), st')
      if env.read_lock1 then
        match env.verify_append st.vs handle block hash_nonces expected_height receipts with
        | .ok _ => finish st
        | .error e =>
          if e ≠ .ViewNotFound then (.error .FailedToVerifyIncrementedCounter, st)
          else
            match env.update_view st.vs with
            | .error _ => (.error .FailedToVerifyIncrementedCounter, st)
            | .ok v' =>
              if env.read_lock2 then
                match env.verify_append v' handle block hash_nonces expected_height receipts with
                | .ok _ => finish { st with vs := v' }
                | .error _ => (.error .FailedToVerifyIncrementedCounter, { st with vs := v' })
              else (.error .FailedToAcquireReadLock, { st with vs := v' })
      else (.error .FailedToAcquireReadLock, st)
  else (.error .FailedToConvertCounter, st)

/-- `EndpointState::read_counter`: obtains `(block, nonces, receipts)` from the
coordinator, runs `verify_read_latest` (with the single `ViewNotFound`
refresh-and-retry), then splits the block into `tag ‖ signature`, checks the
inner client signature over the `NewCounterReq`/`IncrementCounterReq` string
for the verified counter, and signs the `ReadCounterResp` message. -/
def read_counter (C : Crypto) (env : ClientEnv V) (st : EndpointStateM V)
    (handle nonce : Bytes) (sigformat : SignatureFormat) :
    Except EndpointError (Bytes × Nat × Bytes) × EndpointStateM V :=
  match env.read_latest handle nonce with
  | none => (.error .FailedToReadCounter, st)
  | some (block, nonces, receipts) =>
    let finish := fun (counter : Nat) (st' : EndpointStateM V) =>
      if block.length < signature_num_bytes then
        ((.error .FaieldToVerifyReadCounter : Except EndpointError (Bytes × Nat × Bytes)), st')
      else
        let t := block.take (block.length - signature_num_bytes)
        let s := block.drop (block.length - signature_num_bytes)
        let msg := C.digest (read_counter_inner_str st.id handle counter t)
        if C.sigVerify s st.pk msg then
          let sig := C.sign (C.digest (read_counter_resp_str st.id handle counter t nonce))
          (.ok (t, counter, fmtsig C sigformat sig), st')
        else (.error .FaieldToVerifyReadCounter, st')
    if env.read_lock1 then
      match env.verify_read_latest st.vs handle block nonces nonce receipts with
      | .ok counter => finish counter st
      | .error e =>
        if e ≠ .ViewNotFound then (.error .FaieldToVerifyReadCounter, st)
        else
          match env.update_view st.vs with
          | .error _ => (.error .FaieldToVerifyReadCounter, st)
          | .ok v' =>
            if env.read_lock2 then
              match env.verify_read_latest v' handle block nonces nonce receipts with
              | .ok counter => finish counter { st with vs := v' }
              | .error _ => (.error .FaieldToVerifyReadCounter, { st with vs := v' })
            else (.error .FailedToAcquireReadLock, { st with vs := v' })
    else (.error .FailedToAcquireReadLock, st)

/-- The bootstrap environment of `EndpointState::new`: coordinator RPC results
and the `ledger` crate's `VerifierState` operations on the abstract type `V`
(`default` is `VerifierState::default()`, `block_hash` is
`Block::from_bytes(·).hash()`, and `pk` the endpoint's public key). -/
structure BootstrapEnv (V : Type) where
  read_view_by_index : Nat → Option (Bytes × Bytes)
  read_view_tail : Option (Bytes × Bytes × Nat × Bytes)
  set_group_identity : V → Bytes → V
  apply_view_change : V → Bytes → Bytes → Option Bytes → Option V
  default : V
  block_hash : Bytes → Bytes
  pk : Bytes

/-- The back-fill loop of `EndpointState::new`: apply the views at the given
indices in order, failing (`assert!`/`unwrap` in the source) on any error. -/
def apply_view_loop (env : BootstrapEnv V) (v : V) : List Nat → Option V
  | [] => some v
  | i :: rest =>
    match env.read_view_by_index i with
    | none => none
    | some (block, receipts) =>
      match env.apply_view_change v block receipts none with
      | none => none
      | some v' => apply_view_loop env v' rest

/-- `EndpointState::new`: reads the view-ledger entry at index 1, hashes its
block into the group identity `id`, installs it via `set_group_identity`,
applies the view tail with attestations, then back-fills indices
`height-1, …, 1` in descending order.  Source `unwrap`s/`assert!`s are
modelled as `none`. -/
def endpoint_new (env : BootstrapEnv V) : Option (EndpointStateM V) :=
  match env.read_view_by_index 1 with
  | none => none
  | some (block, _r) =>
    let id := env.block_hash block
    let vs0 := env.set_group_identity env.default id
    match env.read_view_tail with
    | none => none
    | some (blockT, receiptsT, height, attestations) =>
      match env.apply_view_change vs0 blockT receiptsT (some attestations) with
      | none => none
      | some vs1 =>
        match apply_view_loop env vs1 ((List.range' 1 (height - 1)).reverse) with
        | none => none
        | some vs2 => some { id := id, pk := env.pk, vs := vs2 }

/-- The canonical signable string exactly as the spec's §3 words it: the
dot-separated base64url encoding of the fields in order, integers
little-endian 8-byte.  (This definition follows the spec, for comparison with
the code's message builders.) -/
def spec_canonical_str (fields : List Bytes) : Bytes :=
  List.intercalate [46] (fields.map base64url)

/-! ## Concrete instantiations used by witnesses and counterexamples -/

/-- A concrete stand-in hash for witnesses: prepends a marker byte. -/
def hashCons (l : Bytes) : Bytes := 9 :: l

/-- A concrete stand-in signing function for witnesses: prepends a marker byte. -/
def signCons (l : Bytes) : Bytes := 8 :: l

/-- A concrete stand-in hash that records only the input length. -/
def hashLen (l : Bytes) : Bytes := [l.length % 256]

/-- An endorser state with no ledgers. -/
def endorserState0 : EndorserState := { signKey := signCons, pubKey := [], ledgers := [] }

/-- An endorser state (identity signing) holding one ledger `[1] ↦ [5]`. -/
def endorserStateTail5 : EndorserState :=
  { signKey := fun l => l, pubKey := [], ledgers := [([1], [5])] }

/-- The state after `create_ledger` on handle `[1]` from `endorserState0`. -/
def c3_s1 : EndorserState := (create_ledger hashCons endorserState0 [1]).2

/-- The state after additionally appending block digest `[2]` to handle `[1]`. -/
def c3_s2 : EndorserState := (append_ledger hashCons c3_s1 [1] [2]).2

/-- Trivial crypto instantiation: identity digest/sign, verification true. -/
def cryptoTriv : Crypto :=
  { digest := fun l => l, sign := fun l => l, sigVerify := fun _ _ _ => true,
    toDer := fun l => l }

/-- Client environment over `V := Bool` (the flag marks the refreshed verifier
state): the first verification of each kind fails with `ViewNotFound`, the
re-verification after the refresh misbehaves in an op-specific way. -/
def c6_env : ClientEnv Bool :=
  { new_ledger := fun _ _ => some []
    append := fun _ _ _ => some ([], [])
    read_latest := fun _ _ => some ([], [], [])
    verify_new_ledger := fun v _ _ _ =>
      if v then .error .InsufficientReceipts else .error .ViewNotFound
    verify_append := fun v _ _ _ _ _ =>
      if v then .error .InvalidSignature else .error .ViewNotFound
    verify_read_latest := fun v _ _ _ _ _ =>
      if v then .error .InvalidSignature else .error .ViewNotFound
    update_view := fun _ => .ok true
    read_lock1 := true
    read_lock2 := true }

/-- Endpoint state paired with `c6_env`, not yet refreshed. -/
def c6_st : EndpointStateM Bool := { id := [], pk := [], vs := false }

/-- Endpoint state paired with `c6_env`, already refreshed. -/
def c6_st_true : EndpointStateM Bool := { id := [], pk := [], vs := true }

/-- Client environment for the read path: `read_latest` returns a 65-byte
block `3 ‖ 0^64` and verification yields counter 0 at once. -/
def c8_env : ClientEnv Unit :=
  { new_ledger := fun _ _ => some []
    append := fun _ _ _ => some ([], [])
    read_latest := fun _ _ => some (3 :: List.replicate 64 0, [], [])
    verify_new_ledger := fun _ _ _ _ => .ok ()
    verify_append := fun _ _ _ _ _ _ => .ok ()
    verify_read_latest := fun _ _ _ _ _ _ => .ok 0
    update_view := fun _ => .ok ()
    read_lock1 := true
    read_lock2 := true }

/-- Endpoint state paired with `c8_env`. -/
def c8_st : EndpointStateM Unit := { id := [], pk := [], vs := () }

/-- Bootstrap environment whose view-ledger entry at index `i` has block
`[i % 256]`; `block_hash` is the identity, the view tail is at height 1. -/
def c9_env : BootstrapEnv Unit :=
  { read_view_by_index := fun i => some ([i % 256], [])
    read_view_tail := some ([], [], 1, [])
    set_group_identity := fun _ _ => ()
    apply_view_change := fun _ _ _ _ => some ()
    default := ()
    block_hash := fun l => l
    pk := [] }

/-! ## Theorems -/

/-- Looking up the key just inserted returns the inserted value. -/
theorem mapLookup_mapInsert_self (m : List (Bytes × Bytes)) (k v : Bytes) :
    mapLookup (mapInsert m k v) k = some v := by
  induction m with
  | nil => simp [mapInsert, mapLookup]
  | cons p rest ih =>
    obtain ⟨k', v'⟩ := p
    by_cases hk : k' = k
    · simp [mapInsert, hk, mapLookup]
    · simp [mapInsert, hk, mapLookup, ih]

/-- C1: immediately after `create_ledger` on a handle the stored tail equals
`H(Signature(handle))`, and every successful `append_ledger` on a present
handle replaces the stored tail by `H(tail_prev ‖ block_digest)`, where
`tail_prev` is the tail stored before the append. -/
theorem C1_endorser_chain (hash : Bytes → Bytes) (s : EndorserState) (h d prev : Bytes) :
    mapLookup ((create_ledger hash s h).2).ledgers h = some (hash (s.signKey h)) ∧
    (mapLookup s.ledgers h = some prev →
      (append_ledger hash s h d).1
        = .ok (prev, hash (prev ++ d), s.signKey (hash (prev ++ d))) ∧
      mapLookup ((append_ledger hash s h d).2).ledgers h = some (hash (prev ++ d))) := by
  constructor
  · simp [create_ledger, mapLookup_mapInsert_self]
  · intro hp
    constructor
    · simp [append_ledger, hp, concat_bytes]
    · simp [append_ledger, hp, concat_bytes, mapLookup_mapInsert_self]

/-- Witness for C1 at a concrete ledger `[1] ↦ [5]` with concrete hash and
signing functions. -/
theorem C1_endorser_chain_witness :
    mapLookup ((create_ledger hashLen endorserStateTail5 [1]).2).ledgers [1]
      = some (hashLen (endorserStateTail5.signKey [1])) ∧
    (append_ledger hashLen endorserStateTail5 [1] [2]).1
      = .ok ([5], hashLen ([5] ++ [2]), endorserStateTail5.signKey (hashLen ([5] ++ [2]))) ∧
    mapLookup ((append_ledger hashLen endorserStateTail5 [1] [2]).2).ledgers [1]
      = some (hashLen ([5] ++ [2])) := by
  have h := C1_endorser_chain hashLen endorserStateTail5 [1] [2] [5]
  exact ⟨h.1, h.2 (by decide)⟩

/-- C2 counterexample: an append on an absent handle fails with
`StateCreationError`, not `LedgerNotFound` (and `append_ledger` takes no
expected height at all). -/
theorem C2_counterexample :
    (append_ledger hashCons endorserState0 [1] [2]).1
      = .error NimbleCrate.EndorserError.StateCreationError ∧
    NimbleCrate.EndorserError.StateCreationError ≠ NimbleCrate.EndorserError.LedgerNotFound :=
  ⟨rfl, by decide⟩

/-- C2 (amended): `append_ledger` takes no expected height and the state stores
no height; on an absent handle it fails with `StateCreationError`, leaving the
state unchanged and signing nothing; on a present handle it always succeeds,
regardless of any height the caller may have had in mind. -/
theorem C2_append_no_height (hash : Bytes → Bytes) (s : EndorserState) (h d prev : Bytes) :
    (mapLookup s.ledgers h = none →
      append_ledger hash s h d = (.error .StateCreationError, s)) ∧
    (mapLookup s.ledgers h = some prev →
      (append_ledger hash s h d).1
        = .ok (prev, hash (prev ++ d), s.signKey (hash (prev ++ d)))) := by
  constructor
  · intro hn
    simp [append_ledger, hn]
  · intro hp
    simp [append_ledger, hp, concat_bytes]

/-- Witness for C2 (amended): the absent case at the empty state and the
present case at the ledger `[1] ↦ [5]`. -/
theorem C2_append_no_height_witness :
    append_ledger hashLen endorserState0 [1] [2]
      = (.error .StateCreationError, endorserState0) ∧
    (append_ledger hashLen endorserStateTail5 [1] [2]).1 = .ok ([5], [2], [2]) := by
  refine ⟨(C2_append_no_height hashLen endorserState0 [1] [2] []).1 (by decide), ?_⟩
  rw [(C2_append_no_height hashLen endorserStateTail5 [1] [2] [5]).2 (by decide)]
  rfl

/-- C3 counterexample: re-creating an existing handle (of length 1, not 32)
succeeds and resets the stored tail, so neither `LedgerExists` nor
`InvalidLedgerName` is ever returned and the map is changed. -/
theorem C3_counterexample :
    (create_ledger hashCons c3_s2 [1]).1 = .ok ([1], [8, 1], []) ∧
    mapLookup c3_s2.ledgers [1] = some [9, 9, 8, 1, 2] ∧
    mapLookup ((create_ledger hashCons c3_s2 [1]).2).ledgers [1] = some [9, 8, 1] :=
  ⟨rfl, rfl, rfl⟩

/-- C3 (amended): `create_ledger` performs no existence check and no length
check: for every state and handle it returns
`Ok(handle, Signature(handle), public_key)` and stores
`handle ↦ H(Signature(handle))` (no height exists), overwriting any previous
tail. -/
theorem C3_create_unconditional (hash : Bytes → Bytes) (s : EndorserState) (h : Bytes) :
    (create_ledger hash s h).1 = .ok (h, s.signKey h, s.pubKey) ∧
    mapLookup ((create_ledger hash s h).2).ledgers h = some (hash (s.signKey h)) := by
  constructor
  · simp [create_ledger]
  · simp [create_ledger, mapLookup_mapInsert_self]

/-- C4 counterexample: with the length-recording hash and identity signing,
the signature returned by `append_ledger` is over the bare new tail `[2]`,
whereas a signature over `H(tail_new ‖ nonce ‖ height_le)` would be over
`[25]` (the hash only records the length `1 + 16 + 8`, so the choice of
16-byte nonce is immaterial): the two differ. -/
theorem C4_counterexample :
    (append_ledger hashLen endorserStateTail5 [1] [2]).1 = .ok ([5], [2], [2]) ∧
    hashLen ([2] ++ List.replicate 16 0 ++ u64_le 1) = [25] ∧
    endorserStateTail5.signKey [25] = [25] ∧ ([2] : Bytes) ≠ [25] :=
  ⟨rfl, rfl, rfl, by decide⟩

/-- C4 (amended): `append_ledger` draws no nonce and uses no height: the
signature it returns is over the new tail itself,
`Signature(H(tail_prev ‖ block_digest))`, and the stored tail is that same
hash. -/
theorem C4_append_signs_tail (hash : Bytes → Bytes) (s : EndorserState) (h d prev : Bytes)
    (hp : mapLookup s.ledgers h = some prev) :
    (append_ledger hash s h d).1
      = .ok (prev, hash (prev ++ d), s.signKey (hash (prev ++ d))) ∧
    mapLookup ((append_ledger hash s h d).2).ledgers h = some (hash (prev ++ d)) := by
  constructor
  · simp [append_ledger, hp, concat_bytes]
  · simp [append_ledger, hp, concat_bytes, mapLookup_mapInsert_self]

/-- Witness for C4 (amended) at the concrete ledger `[1] ↦ [5]`. -/
theorem C4_append_signs_tail_witness :
    (append_ledger hashCons endorserStateTail5 [1] [2]).1
      = .ok ([5], hashCons ([5] ++ [2]), endorserStateTail5.signKey (hashCons ([5] ++ [2]))) ∧
    mapLookup ((append_ledger hashCons endorserStateTail5 [1] [2]).2).ledgers [1]
      = some (hashCons ([5] ++ [2])) :=
  C4_append_signs_tail hashCons endorserStateTail5 [1] [2] [5] (by decide)

/-- C5 counterexample: a read on an absent handle fails with
`TailDoesNotMatch`, not `LedgerNotFound`. -/
theorem C5_counterexample :
    get_latest_state_for_handle hashCons endorserState0 [1] [9]
      = .error NimbleCrate.EndorserError.TailDoesNotMatch ∧
    NimbleCrate.EndorserError.TailDoesNotMatch ≠ NimbleCrate.EndorserError.LedgerNotFound :=
  ⟨rfl, by decide⟩

/-- C5 (amended): for a present handle, `get_latest_state_for_handle` returns
`(client_nonce, tail, Signature(H(tail ‖ client_nonce)))` — the stored tail and
the signature as claimed, but the nonce in place of any height, since no height
exists; the operation is pure (it returns no state).  An absent handle fails
with `TailDoesNotMatch`. -/
theorem C5_read_latest (hash : Bytes → Bytes) (s : EndorserState) (handle nonce tail : Bytes) :
    (mapLookup s.ledgers handle = some tail →
      get_latest_state_for_handle hash s handle nonce
        = .ok (nonce, tail, s.signKey (hash (tail ++ nonce)))) ∧
    (mapLookup s.ledgers handle = none →
      get_latest_state_for_handle hash s handle nonce = .error .TailDoesNotMatch) := by
  constructor
  · intro hp
    simp [get_latest_state_for_handle, get_tail, hp, concat_bytes]
  · intro hn
    simp [get_latest_state_for_handle, get_tail, hn]

/-- Witness for C5 (amended): the present case at `[1] ↦ [5]` and the absent
case at the empty state. -/
theorem C5_read_latest_witness :
    get_latest_state_for_handle hashLen endorserStateTail5 [1] [9]
      = .ok ([9], [5], endorserStateTail5.signKey (hashLen ([5] ++ [9]))) ∧
    get_latest_state_for_handle hashLen endorserState0 [1] [9]
      = .error .TailDoesNotMatch := by
  refine ⟨(C5_read_latest hashLen endorserStateTail5 [1] [9] [5]).1 (by decide),
    (C5_read_latest hashLen endorserState0 [1] [9] []).2 (by decide)⟩

/-- C6: for each of `new_counter`, `increment_counter`, `read_counter`: a first
verification failure other than `ViewNotFound` is terminal (the result does not
depend on the refresh or re-verification environment); on `ViewNotFound` the
client runs `update_view` once and re-verifies once against the refreshed
verifier state, and if the refresh or the re-verification fails for any reason
the operation returns its `FailedToVerify*` error (a second `ViewNotFound`
included). -/
theorem C6_retry_discipline :
    (∀ (V : Type) (C : Crypto) (env : ClientEnv V) (st : EndpointStateM V)
        (handle tag receipts : Bytes) (fmt : SignatureFormat) (e : VerificationError),
      env.new_ledger handle (new_counter_block C st.id handle tag) = some receipts →
      env.read_lock1 = true →
      env.verify_new_ledger st.vs handle (new_counter_block C st.id handle tag) receipts
        = .error e →
      e ≠ .ViewNotFound →
      new_counter C env st handle tag fmt = (.error .FailedToVerifyNewCounter, st)) ∧
    (∀ (V : Type) (C : Crypto) (env : ClientEnv V) (st : EndpointStateM V)
        (handle tag receipts : Bytes) (fmt : SignatureFormat) (u : EndpointError),
      env.new_ledger handle (new_counter_block C st.id handle tag) = some receipts →
      env.read_lock1 = true →
      env.verify_new_ledger st.vs handle (new_counter_block C st.id handle tag) receipts
        = .error .ViewNotFound →
      env.update_view st.vs = .error u →
      new_counter C env st handle tag fmt = (.error .FailedToVerifyNewCounter, st)) ∧
    (∀ (V : Type) (C : Crypto) (env : ClientEnv V) (st : EndpointStateM V)
        (handle tag receipts : Bytes) (fmt : SignatureFormat) (v' : V) (e' : VerificationError),
      env.new_ledger handle (new_counter_block C st.id handle tag) = some receipts →
      env.read_lock1 = true →
      env.verify_new_ledger st.vs handle (new_counter_block C st.id handle tag) receipts
        = .error .ViewNotFound →
      env.update_view st.vs = .ok v' →
      env.read_lock2 = true →
      env.verify_new_ledger v' handle (new_counter_block C st.id handle tag) receipts
        = .error e' →
      new_counter C env st handle tag fmt
        = (.error .FailedToVerifyNewCounter, { st with vs := v' })) ∧
    (∀ (V : Type) (C : Crypto) (bits : Nat) (env : ClientEnv V) (st : EndpointStateM V)
        (handle tag hash_nonces receipts : Bytes) (ctr : Nat) (fmt : SignatureFormat)
        (e : VerificationError),
      ctr < 2 ^ bits →
      env.append handle (increment_counter_block C st.id handle ctr tag) ctr
        = some (hash_nonces, receipts) →
      env.read_lock1 = true →
      env.verify_append st.vs handle (increment_counter_block C st.id handle ctr tag)
          hash_nonces ctr receipts = .error e →
      e ≠ .ViewNotFound →
      increment_counter C bits env st handle tag ctr fmt
        = (.error .FailedToVerifyIncrementedCounter, st)) ∧
    (∀ (V : Type) (C : Crypto) (bits : Nat) (env : ClientEnv V) (st : EndpointStateM V)
        (handle tag hash_nonces receipts : Bytes) (ctr : Nat) (fmt : SignatureFormat)
        (u : EndpointError),
      ctr < 2 ^ bits →
      env.append handle (increment_counter_block C st.id handle ctr tag) ctr
        = some (hash_nonces, receipts) →
      env.read_lock1 = true →
      env.verify_append st.vs handle (increment_counter_block C st.id handle ctr tag)
          hash_nonces ctr receipts = .error .ViewNotFound →
      env.update_view st.vs = .error u →
      increment_counter C bits env st handle tag ctr fmt
        = (.error .FailedToVerifyIncrementedCounter, st)) ∧
    (∀ (V : Type) (C : Crypto) (bits : Nat) (env : ClientEnv V) (st : EndpointStateM V)
        (handle tag hash_nonces receipts : Bytes) (ctr : Nat) (fmt : SignatureFormat)
        (v' : V) (e' : VerificationError),
      ctr < 2 ^ bits →
      env.append handle (increment_counter_block C st.id handle ctr tag) ctr
        = some (hash_nonces, receipts) →
      env.read_lock1 = true →
      env.verify_append st.vs handle (increment_counter_block C st.id handle ctr tag)
          hash_nonces ctr receipts = .error .ViewNotFound →
      env.update_view st.vs = .ok v' →
      env.read_lock2 = true →
      env.verify_append v' handle (increment_counter_block C st.id handle ctr tag)
          hash_nonces ctr receipts = .error e' →
      increment_counter C bits env st handle tag ctr fmt
        = (.error .FailedToVerifyIncrementedCounter, { st with vs := v' })) ∧
    (∀ (V : Type) (C : Crypto) (env : ClientEnv V) (st : EndpointStateM V)
        (handle nonce block nonces receipts : Bytes) (fmt : SignatureFormat)
        (e : VerificationError),
      env.read_latest handle nonce = some (block, nonces, receipts) →
      env.read_lock1 = true →
      env.verify_read_latest st.vs handle block nonces nonce receipts = .error e →
      e ≠ .ViewNotFound →
      read_counter C env st handle nonce fmt = (.error .FaieldToVerifyReadCounter, st)) ∧
    (∀ (V : Type) (C : Crypto) (env : ClientEnv V) (st : EndpointStateM V)
        (handle nonce block nonces receipts : Bytes) (fmt : SignatureFormat)
        (u : EndpointError),
      env.read_latest handle nonce = some (block, nonces, receipts) →
      env.read_lock1 = true →
      env.verify_read_latest st.vs handle block nonces nonce receipts = .error .ViewNotFound →
      env.update_view st.vs = .error u →
      read_counter C env st handle nonce fmt = (.error .FaieldToVerifyReadCounter, st)) ∧
    (∀ (V : Type) (C : Crypto) (env : ClientEnv V) (st : EndpointStateM V)
        (handle nonce block nonces receipts : Bytes) (fmt : SignatureFormat)
        (v' : V) (e' : VerificationError),
      env.read_latest handle nonce = some (block, nonces, receipts) →
      env.read_lock1 = true →
      env.verify_read_latest st.vs handle block nonces nonce receipts = .error .ViewNotFound →
      env.update_view st.vs = .ok v' →
      env.read_lock2 = true →
      env.verify_read_latest v' handle block nonces nonce receipts = .error e' →
      read_counter C env st handle nonce fmt
        = (.error .FaieldToVerifyReadCounter, { st with vs := v' })) := by
  refine ⟨?_, ?_, ?_, ?_, ?_, ?_, ?_, ?_, ?_⟩
  · intro V C env st handle tag receipts fmt e h1 h2 h3 h4
    simp [new_counter, h1, h2, h3, h4]
  · intro V C env st handle tag receipts fmt u h1 h2 h3 h5
    simp [new_counter, h1, h2, h3, h5]
  · intro V C env st handle tag receipts fmt v' e' h1 h2 h3 h5 h6 h7
    simp [new_counter, h1, h2, h3, h5, h6, h7]
  · intro V C bits env st handle tag hash_nonces receipts ctr fmt e hc h1 h2 h3 h4
    simp [increment_counter, hc, h1, h2, h3, h4]
  · intro V C bits env st handle tag hash_nonces receipts ctr fmt u hc h1 h2 h3 h5
    simp [increment_counter, hc, h1, h2, h3, h5]
  · intro V C bits env st handle tag hash_nonces receipts ctr fmt v' e' hc h1 h2 h3 h5 h6 h7
    simp [increment_counter, hc, h1, h2, h3, h5, h6, h7]
  · intro V C env st handle nonce block nonces receipts fmt e h1 h2 h3 h4
    simp [read_counter, h1, h2, h3, h4]
  · intro V C env st handle nonce block nonces receipts fmt u h1 h2 h3 h5
    simp [read_counter, h1, h2, h3, h5]
  · intro V C env st handle nonce block nonces receipts fmt v' e' h1 h2 h3 h5 h6 h7
    simp [read_counter, h1, h2, h3, h5, h6, h7]

/-- Witness for C6: a terminal non-`ViewNotFound` failure for `new_counter`,
and a `ViewNotFound`-then-failed-retry for `increment_counter` and
`read_counter`, all over the concrete boolean verifier state. -/
theorem C6_retry_discipline_witness :
    new_counter cryptoTriv c6_env c6_st_true [] [] .RAW
      = (.error .FailedToVerifyNewCounter, c6_st_true) ∧
    increment_counter cryptoTriv 64 c6_env c6_st [] [] 1 .RAW
      = (.error .FailedToVerifyIncrementedCounter, c6_st_true) ∧
    read_counter cryptoTriv c6_env c6_st [] [] .RAW
      = (.error .FaieldToVerifyReadCounter, c6_st_true) := by
  refine ⟨C6_retry_discipline.1 Bool cryptoTriv c6_env c6_st_true [] [] [] .RAW
      .InsufficientReceipts rfl rfl rfl (by decide), ?_, ?_⟩
  · exact C6_retry_discipline.2.2.2.2.2.1 Bool cryptoTriv 64 c6_env c6_st [] [] [] [] 1 .RAW
      true .InvalidSignature (by decide) rfl rfl rfl rfl rfl rfl
  · exact C6_retry_discipline.2.2.2.2.2.2.2.2 Bool cryptoTriv c6_env c6_st [] [] [] [] []
      .RAW true .InvalidSignature rfl rfl rfl rfl rfl rfl

/-- C7 counterexample: the Rust enum gives `NewCounterReq` discriminant 0 (not
1), `IncrementCounterReq` 2 (not 3) and `ReadCounterResp` 5 (not 6); at
concrete empty fields, the string hashed by `new_counter` differs from the
spec's canonical string with msgtype 1. -/
theorem C7_counterexample :
    MessageType.asU64 .NewCounterReq = 0 ∧
    MessageType.asU64 .IncrementCounterReq = 2 ∧
    MessageType.asU64 .ReadCounterResp = 5 ∧
    new_counter_req_str [] [] [] ≠ spec_canonical_str [u64_le 1, [], [], u64_le 0, []] := by
  refine ⟨rfl, rfl, rfl, by decide⟩

/-- C7 (amended): each client message is hashed as the dot-separated base64url
encoding of its fields in the documented order with 8-byte little-endian
integers — exactly the spec's canonical form — but the message types are the
Rust discriminants: `NewCounterReq` starts with msgtype 0, `IncrementCounterReq`
with msgtype 2, `ReadCounterResp` with msgtype 5. -/
theorem C7_canonical_messages (id handle tag nonce : Bytes) (ctr : Nat) :
    new_counter_req_str id handle tag
      = spec_canonical_str [u64_le 0, id, handle, u64_le 0, tag] ∧
    increment_counter_req_str id handle ctr tag
      = spec_canonical_str [u64_le 2, id, handle, u64_le ctr, tag] ∧
    read_counter_resp_str id handle ctr tag nonce
      = spec_canonical_str [u64_le 5, id, handle, u64_le ctr, tag, nonce] := by
  refine ⟨?_, ?_, ?_⟩ <;>
    simp [new_counter_req_str, increment_counter_req_str, read_counter_resp_str,
      spec_canonical_str, dotted5, dotted6, MessageType.asU64, List.intercalate,
      List.intersperse, List.flatten]

/-- C8: after successful receipt verification yielding `counter`,
`read_counter` splits the block into `tag ‖ signature` with the signature in
the final 64 bytes, requires the signature to verify under the client's public
key over the code's canonical `NewCounterReq` string when `counter = 0` and
`IncrementCounterReq` string otherwise (the same strings the writers sign),
and fails instead of returning a value on a short block or a bad signature. -/
theorem C8_read_counter_block (V : Type) (C : Crypto) (env : ClientEnv V)
    (st : EndpointStateM V) (handle nonce block nonces receipts : Bytes)
    (fmt : SignatureFormat) (counter : Nat)
    (h1 : env.read_latest handle nonce = some (block, nonces, receipts))
    (h2 : env.read_lock1 = true)
    (h3 : env.verify_read_latest st.vs handle block nonces nonce receipts = .ok counter) :
    (block.length < signature_num_bytes →
      read_counter C env st handle nonce fmt = (.error .FaieldToVerifyReadCounter, st)) ∧
    (signature_num_bytes ≤ block.length →
      (C.sigVerify (block.drop (block.length - signature_num_bytes)) st.pk
          (C.digest (read_counter_inner_str st.id handle counter
            (block.take (block.length - signature_num_bytes)))) = false →
        read_counter C env st handle nonce fmt = (.error .FaieldToVerifyReadCounter, st)) ∧
      (C.sigVerify (block.drop (block.length - signature_num_bytes)) st.pk
          (C.digest (read_counter_inner_str st.id handle counter
            (block.take (block.length - signature_num_bytes)))) = true →
        read_counter C env st handle nonce fmt
          = (.ok (block.take (block.length - signature_num_bytes), counter,
              fmtsig C fmt (C.sign (C.digest (read_counter_resp_str st.id handle counter
                (block.take (block.length - signature_num_bytes)) nonce)))), st))) ∧
    (∀ t : Bytes, read_counter_inner_str st.id handle counter t
      = if counter = 0 then new_counter_req_str st.id handle t
        else increment_counter_req_str st.id handle counter t) := by
  refine ⟨?_, ?_, ?_⟩
  · intro hlt
    simp [read_counter, h1, h2, h3, hlt]
  · intro hge
    have hnl : ¬ block.length < signature_num_bytes := Nat.not_lt.mpr hge
    constructor
    · intro hv
      simp [read_counter, h1, h2, h3, hnl, hv]
    · intro hv
      simp [read_counter, h1, h2, h3, hnl, hv]
  · intro t
    by_cases hc : counter = 0 <;>
      simp [hc, read_counter_inner_str, new_counter_req_str, increment_counter_req_str]

/-- Witness for C8: a concrete 65-byte block `3 ‖ 0^64` with always-true
signature verification yields `(tag := [3], counter := 0)` and the response
signature over the `ReadCounterResp` string. -/
theorem C8_read_counter_block_witness :
    signature_num_bytes ≤ (3 :: List.replicate 64 0 : Bytes).length ∧
    read_counter cryptoTriv c8_env c8_st [] [] .RAW
      = (.ok ([3], 0, read_counter_resp_str [] [] 0 [3] []), c8_st) := by
  refine ⟨by decide, ?_⟩
  have h := ((C8_read_counter_block Unit cryptoTriv c8_env c8_st [] []
    (3 :: List.replicate 64 0) [] [] .RAW 0 rfl rfl rfl).2.1 (by decide)).2 rfl
  rw [h]
  rfl

/-- C9 counterexample: with a bootstrap environment whose view-ledger entry at
index `i` has block `[i]` and identity `block_hash`, the stored group identity
is `[1]` — the digest of the entry at index 1 — and not `[0]`, the digest of
the entry at index 0. -/
theorem C9_counterexample :
    (endpoint_new c9_env).map EndpointStateM.id = some [1] ∧
    c9_env.read_view_by_index 0 = some ([0], []) ∧
    c9_env.block_hash [0] = [0] ∧ ([1] : Bytes) ≠ [0] := by
  refine ⟨rfl, rfl, rfl, by decide⟩

/-- C9 (amended): the group identity stored by `EndpointState::new` is the
digest of the view-ledger block served at index 1 (the entry the code treats
as the view ledger's genesis), set once at bootstrap; no client operation
changes it. -/
theorem C9_group_identity (V : Type) (env : BootstrapEnv V) (st : EndpointStateM V)
    (b r : Bytes) (C : Crypto) (env2 : ClientEnv V) (handle tag nonce : Bytes)
    (ctr bits : Nat) (fmt : SignatureFormat) :
    (env.read_view_by_index 1 = some (b, r) → endpoint_new env = some st →
      st.id = env.block_hash b) ∧
    (new_counter C env2 st handle tag fmt).2.id = st.id ∧
    (increment_counter C bits env2 st handle tag ctr fmt).2.id = st.id ∧
    (read_counter C env2 st handle nonce fmt).2.id = st.id := by
  refine ⟨?_, ?_, ?_, ?_⟩
  · intro h1 h2
    simp only [endpoint_new, h1] at h2
    cases hT : env.read_view_tail with
    | none => simp [hT] at h2
    | some q =>
      obtain ⟨bT, rT, hgt, att⟩ := q
      simp only [hT] at h2
      cases hA : env.apply_view_change (env.set_group_identity env.default (env.block_hash b))
          bT rT (some att) with
      | none => simp [hA] at h2
      | some v1 =>
        simp only [hA] at h2
        cases hL : apply_view_loop env v1 ((List.range' 1 (hgt - 1)).reverse) with
        | none => simp [hL] at h2
        | some v2 =>
          simp only [hL, Option.some.injEq] at h2
          subst h2
          rfl
  · simp only [new_counter]
    repeat' split
    all_goals rfl
  · simp only [increment_counter]
    repeat' split
    all_goals rfl
  · simp only [read_counter]
    repeat' split
    all_goals rfl

/-- Witness for C9 (amended): the concrete bootstrap environment stores
identity `[1]`, and the client operations over the boolean verifier state
leave the identity unchanged. -/
theorem C9_group_identity_witness :
    ((endpoint_new c9_env).getD { id := [], pk := [], vs := () }).id
      = c9_env.block_hash [1] ∧
    (new_counter cryptoTriv c6_env c6_st [] [] .RAW).2.id = c6_st.id ∧
    (increment_counter cryptoTriv 64 c6_env c6_st [] [] 1 .RAW).2.id = c6_st.id ∧
    (read_counter cryptoTriv c6_env c6_st [] [] .RAW).2.id = c6_st.id := by
  have h9 := C9_group_identity Unit c9_env
    ((endpoint_new c9_env).getD { id := [], pk := [], vs := () }) [1] [] cryptoTriv
    c8_env [] [] [] 0 64 .RAW
  have hb := C9_group_identity Bool
    { read_view_by_index := fun _ => none, read_view_tail := none,
      set_group_identity := fun v _ => v, apply_view_change := fun v _ _ _ => some v,
      default := false, block_hash := fun l => l, pk := [] }
    c6_st [1] [] cryptoTriv c6_env [] [] [] 1 64 .RAW
  exact ⟨h9.1 rfl rfl, hb.2.1, hb.2.2.1, hb.2.2.2⟩

/-- C10: an `increment_counter` whose expected counter does not fit the
platform `usize` fails with `FailedToConvertCounter` for every environment
(hence before any request), returning the state unchanged; when `usize` is at
least 64 bits wide, no `u64` counter can trigger this error. -/
theorem C10_convert_guard :
    (∀ (V : Type) (C : Crypto) (bits : Nat) (env : ClientEnv V) (st : EndpointStateM V)
        (handle tag : Bytes) (ctr : Nat) (fmt : SignatureFormat),
      ¬ ctr < 2 ^ bits →
      increment_counter C bits env st handle tag ctr fmt
        = (.error .FailedToConvertCounter, st)) ∧
    (∀ (V : Type) (C : Crypto) (bits : Nat) (env : ClientEnv V) (st : EndpointStateM V)
        (handle tag : Bytes) (ctr : Nat) (fmt : SignatureFormat),
      64 ≤ bits → ctr < 2 ^ 64 →
      (increment_counter C bits env st handle tag ctr fmt).1
        ≠ .error .FailedToConvertCounter) := by
  constructor
  · intro V C bits env st handle tag ctr fmt hge
    simp [increment_counter, hge]
  · intro V C bits env st handle tag ctr fmt hb hc
    have hlt : ctr < 2 ^ bits :=
      lt_of_lt_of_le hc (Nat.pow_le_pow_right (by norm_num) hb)
    simp only [increment_counter, hlt, if_true]
    repeat' split
    all_goals simp

/-- Witness for C10: on a 32-bit `usize` the counter `2^32` is rejected with
`FailedToConvertCounter`; on a 64-bit `usize` the guard does not fire. -/
theorem C10_convert_guard_witness :
    increment_counter cryptoTriv 32 c6_env c6_st [] [] (2 ^ 32) .RAW
      = (.error .FailedToConvertCounter, c6_st) ∧
    (increment_counter cryptoTriv 64 c6_env c6_st [] [] 1 .RAW).1
      ≠ .error .FailedToConvertCounter := by
  exact ⟨C10_convert_guard.1 Bool cryptoTriv 32 c6_env c6_st [] [] (2 ^ 32) .RAW (by decide),
    C10_convert_guard.2 Bool cryptoTriv 64 c6_env c6_st [] [] 1 .RAW (by decide) (by decide)⟩
